import Mathlib

/-!
Shallow embedding of the `lift` constructs:
`Database` (src/constructs/Database.ts) and `Vpc` (the network construct).

Machine-checked development of the configuration-to-resource-declaration
mapping: schema validation (including the ECMAScript `pattern` of the `name`
field), engine/version lookup, safe database-name derivation, default
application, and the network construct's security-group and shared-context
registration.
-/

/-- Character class `[\w\d-_]` used by the `name` pattern of `SCHEMA`
(Database.ts line 22): `\w` is `[A-Za-z0-9_]`, `\d` is `[0-9]`, plus the
literal `-` and `_` (in ECMAScript Annex B semantics a `-` following a class
escape is a literal dash). -/
def wordDashMem (c : Char) : Bool :=
  c.isAlphanum || c == '_' || c == '-'

/-- Tokens of the small regular-expression fragment needed to embed the
schema patterns: start/end anchors, a literal character, and a Kleene star
over a character class. -/
inductive Tok where
  | anchorStart
  | anchorEnd
  | lit (c : Char)
  | starCls (p : Char → Bool)

/-- Backtracking Kleene star over a character class `p`, followed by a
continuation `k`; `i` is the absolute position in the subject string (needed
by the `^` anchor). Tries the empty repetition first, then consumes one
class character and recurses. -/
def starMatch (p : Char → Bool) (k : List Char → Nat → Bool) : List Char → Nat → Bool
  | [], i => k [] i
  | c :: cs, i => k (c :: cs) i || (p c && starMatch p k cs (i + 1))

/-- ECMAScript-style matching of a token list against the suffix `cs` of the
subject, where `i` is the absolute position of `cs` in the whole subject.
`^` matches only at position 0, `$` only at the end of the input. -/
def matchToks : List Tok → List Char → Nat → Bool
  | [], _, _ => true
  | Tok.anchorStart :: ts, cs, i => (i == 0) && matchToks ts cs i
  | Tok.anchorEnd :: ts, cs, i => cs.isEmpty && matchToks ts cs i
  | Tok.lit c :: ts, cs, i =>
    match cs with
    | [] => false
    | d :: cs => (c == d) && matchToks ts cs (i + 1)
  | Tok.starCls p :: ts, cs, i => starMatch p (fun cs i => matchToks ts cs i) cs i

/-- Unanchored regular-expression search, the semantics JSON-schema `pattern`
validation uses: the regex may match starting at any position of the value. -/
def searchToks (ts : List Tok) (s : String) : Bool :=
  (List.range (s.data.length + 1)).any fun k => matchToks ts (s.data.drop k) k

/-- The `pattern` of `SCHEMA.properties.name` (Database.ts line 22) is the
string `"^[\\w\\d-_]*$/"`, i.e. the regular expression
`^` `[\w\d-_]*` `$` `/` — including the trailing slash present in the
source string. -/
def namePatternToks : List Tok :=
  [Tok.anchorStart, Tok.starCls wordDashMem, Tok.anchorEnd, Tok.lit '/']

/-- Whether a string value of the `name` field passes the code's `pattern`
check. -/
def nameFieldAccepts (s : String) : Bool :=
  searchToks namePatternToks s

/-- Spec-side comparison definition, following the spec's words: §6 documents
the `name` pattern as `^[\w\d_-]*$` (no trailing slash). -/
def specNamePatternToks : List Tok :=
  [Tok.anchorStart, Tok.starCls wordDashMem, Tok.anchorEnd]

/-- Whether a name matches the spec's documented pattern `^[\w\d_-]*$`. -/
def specNameAccepts (s : String) : Bool :=
  searchToks specNamePatternToks s

/-- A raw (not yet validated) database configuration object: one optional
field per property of `SCHEMA` (Database.ts lines 17-40). -/
structure RawConfig where
  name : Option String := none
  password : Option String := none
  engine : Option String := none
  instanceType : Option String := none
  storageSize : Option Int := none

/-- JSON-schema validation of `SCHEMA` (Database.ts lines 17-40): `name` must
match the `pattern` when present; `password` is required with `minLength` 8;
`engine` must be one of the enum values when present; `instanceType` is an
unconstrained string; `storageSize` has `minimum` 20 when present. -/
def validateDatabaseConfig (c : RawConfig) : Bool :=
  (match c.name with
   | none => true
   | some s => nameFieldAccepts s) &&
  (match c.password with
   | none => false
   | some p => decide (8 ≤ p.length)) &&
  (match c.engine with
   | none => true
   | some e => e == "mysql" || e == "mariadb" || e == "postgres") &&
  (match c.storageSize with
   | none => true
   | some n => decide ((20 : Int) ≤ n))

/-- The runtime configuration object the `Database` constructor receives:
`password` present (it is schema-required), every other field optional.
`engine` is kept as a plain string so that runtime values that bypassed
schema validation can be expressed. -/
structure Configuration where
  name : Option String := none
  password : String
  engine : Option String := none
  instanceType : Option String := none
  storageSize : Option Int := none

/-- The three database engines of the SDK constructors used by
`getEngineVersion` (Database.ts lines 124-139). -/
inductive EngineKind where
  | mysql
  | mariadb
  | postgres
deriving DecidableEq

/-- An engine version as built by `MysqlEngineVersion.of(full, major)` and
its MariaDB/Postgres counterparts. -/
structure EngineVersion where
  fullVersion : String
  majorVersion : String
deriving DecidableEq

/-- An instance engine: the engine kind together with its pinned version,
as produced by `DatabaseInstanceEngine.mysql({version})` etc. -/
structure InstanceEngine where
  kind : EngineKind
  version : EngineVersion
deriving DecidableEq

/-- Subnet placement used by the database declaration (only the `PRIVATE`
variant occurs in the source). -/
inductive SubnetType where
  | PRIVATE
deriving DecidableEq

/-- Log retention values used by the source (only `ONE_WEEK` occurs). -/
inductive RetentionDays where
  | oneWeek
deriving DecidableEq

/-- `Database.getEngine` (Database.ts lines 120-122):
`this.configuration.engine ?? "mysql"`. -/
def getEngine (cfg : Configuration) : String :=
  cfg.engine.getD "mysql"

/-- `Database.getEngineVersion` (Database.ts lines 124-139): a `switch` on
`getEngine()` with cases `mysql`, `mariadb`, `postgres` and no `default`
branch — falling through the switch makes the JavaScript function return
`undefined`, embedded here as `none`. -/
def getEngineVersion (cfg : Configuration) : Option InstanceEngine :=
  match getEngine cfg with
  | "mysql" => some ⟨EngineKind.mysql, ⟨"8.0.23", "8.0"⟩⟩
  | "mariadb" => some ⟨EngineKind.mariadb, ⟨"10.5.8", "10.5"⟩⟩
  | "postgres" => some ⟨EngineKind.postgres, ⟨"13.2", "13"⟩⟩
  | _ => none

/-- Embedding of a global `String.replace` of the single character `c` by the
empty string: it removes every occurrence of `c`. -/
def removeAll (c : Char) (s : String) : String :=
  ⟨s.data.filter fun d => d != c⟩

/-- `Database.safeDbName` (Database.ts lines 116-118): a global replace of
every hyphen by the empty string, then a global replace of every underscore
by the empty string. -/
def safeDbName (s : String) : String :=
  removeAll '_' (removeAll '-' s)

/-- The `DatabaseInstance` declaration the constructor builds
(Database.ts lines 70-90). -/
structure DatabaseInstanceProps where
  instanceIdentifier : String
  databaseName : String
  engine : Option InstanceEngine
  instanceType : String
  credentialsUsername : String
  credentialsPassword : String
  subnetType : SubnetType
  allocatedStorage : Int
  backupRetentionDays : Nat
  cloudwatchLogsExports : List String
  cloudwatchLogsRetention : RetentionDays

/-- The `Database` constructor's resource declaration (Database.ts
lines 70-90), as a function of the stack name, the construct id and the
configuration. `??` is nullish coalescing, i.e. `Option.getD`. -/
def makeDbInstanceProps (stackName id : String) (cfg : Configuration) : DatabaseInstanceProps :=
  { instanceIdentifier := cfg.name.getD (stackName ++ "-" ++ id)
    databaseName := safeDbName (cfg.name.getD (stackName ++ "-" ++ id))
    engine := getEngineVersion cfg
    instanceType := cfg.instanceType.getD "t3.micro"
    credentialsUsername := "admin"
    credentialsPassword := cfg.password
    subnetType := SubnetType.PRIVATE
    allocatedStorage := cfg.storageSize.getD 20
    backupRetentionDays := 7
    cloudwatchLogsExports := [""]
    cloudwatchLogsRetention := RetentionDays.oneWeek }

/-- The network construct's configuration: `VPC_DEFINITION` has a single
optional `type` property (a `"vpc"` discriminator) and nothing else. -/
structure VpcConfiguration where
  typeField : Option String := none

/-- Traffic peers used by the source (only `Peer.anyIpv4()` occurs). -/
inductive Peer where
  | anyIpv4
deriving DecidableEq

/-- Port selections used by the source (only `Port.allTraffic()` occurs). -/
inductive PortSpec where
  | allTraffic
deriving DecidableEq

/-- One egress rule of a security group. -/
structure EgressRule where
  peer : Peer
  port : PortSpec
deriving DecidableEq

/-- A security group: its (externally assigned) name and its egress rules in
the order they were added. -/
structure SecurityGroupState where
  securityGroupName : String
  egressRules : List EgressRule
deriving DecidableEq

/-- Provider-wide shared state: the list of `setVpcConfig` calls made so far,
each carrying the security-group names and the subnet ids it published. -/
structure ProviderState where
  vpcConfigCalls : List (List String × List String) := []

/-- `new SecurityGroup(...)`: a fresh group with no egress rules of its own
yet (`name` is the identifier the platform assigns it). -/
def newSecurityGroup (name : String) : SecurityGroupState :=
  { securityGroupName := name, egressRules := [] }

/-- `SecurityGroup.addEgressRule(peer, port)`: appends one egress rule. -/
def addEgressRule (sg : SecurityGroupState) (peer : Peer) (port : PortSpec) : SecurityGroupState :=
  { sg with egressRules := sg.egressRules ++ [{ peer := peer, port := port }] }

/-- `provider.setVpcConfig(securityGroups, subnets)`: records one publication
to the provider-wide shared network context. -/
def setVpcConfig (p : ProviderState) (groups : List String) (subnets : List String) : ProviderState :=
  { p with vpcConfigCalls := p.vpcConfigCalls ++ [(groups, subnets)] }

/-- What the `Vpc` constructor allocated: the `maxAzs` setting passed to the
base network and the security groups it created. -/
structure VpcState where
  maxAzs : Nat
  securityGroups : List SecurityGroupState

/-- The `Vpc` constructor (part_000 lines 28-45): calls the base constructor
with `maxAzs: 2`, creates one security group, adds to it a single egress rule
`(Peer.anyIpv4(), Port.allTraffic())`, and publishes the group's name and the
private subnet ids via `provider.setVpcConfig`. The group's assigned name
`sgName` and the private subnet ids (assigned by the external SDK) are
parameters. -/
def vpcConstruct (cfg : VpcConfiguration) (provider : ProviderState)
    (sgName : String) (privateSubnetIds : List String) : VpcState × ProviderState :=
  let appSecurityGroup := addEgressRule (newSecurityGroup sgName) Peer.anyIpv4 PortSpec.allTraffic
  let provider := setVpcConfig provider [appSecurityGroup.securityGroupName] privateSubnetIds
  ({ maxAzs := 2, securityGroups := [appSecurityGroup] }, provider)

/-- `Vpc.outputs()` (part_000 lines 47-49) returns the empty record: the keys
of the record it returns. -/
def vpcOutputs : List String := []

/-- If the continuation fails everywhere, a Kleene star cannot make the match
succeed. -/
theorem starMatch_false (p : Char → Bool) (k : List Char → Nat → Bool)
    (hk : ∀ cs i, k cs i = false) : ∀ (cs : List Char) (i : Nat), starMatch p k cs i = false := by
  intro cs
  induction cs with
  | nil => intro i; simp [starMatch, hk]
  | cons c cs ih => intro i; simp [starMatch, hk, ih]

/-- The tail `$` `/` of the code's name pattern can never match: after the end
anchor there is no character left for the literal slash. -/
theorem matchToks_endSlash_false : ∀ (cs : List Char) (i : Nat),
    matchToks [Tok.anchorEnd, Tok.lit '/'] cs i = false := by
  intro cs i
  cases cs <;> simp [matchToks]

/-- The code's name pattern never matches at any position of any suffix. -/
theorem matchToks_namePattern_false (cs : List Char) (i : Nat) :
    matchToks namePatternToks cs i = false := by
  have h2 : starMatch wordDashMem (fun cs i => matchToks [Tok.anchorEnd, Tok.lit '/'] cs i)
      cs i = false :=
    starMatch_false _ _ matchToks_endSlash_false cs i
  show ((i == 0) &&
      starMatch wordDashMem (fun cs i => matchToks [Tok.anchorEnd, Tok.lit '/'] cs i) cs i) = false
  rw [h2, Bool.and_false]

/-- The code's name pattern, searched anywhere in any string, never matches. -/
theorem nameFieldAccepts_eq_false (s : String) : nameFieldAccepts s = false := by
  simp [nameFieldAccepts, searchToks, matchToks_namePattern_false]

/-- Filtering twice with the same predicate is the same as filtering once. -/
theorem filter_self_idem {α : Type} (f : α → Bool) :
    ∀ l : List α, (l.filter f).filter f = l.filter f := by
  intro l
  induction l with
  | nil => rfl
  | cons c cs ih => cases h : f c <;> simp [List.filter_cons, h, ih]

/-- Removing the hyphens and then the underscores of a character list is the
single filter keeping characters that are neither. -/
theorem filter_dash_then_underscore : ∀ l : List Char,
    ((l.filter fun d => d != '-').filter fun d => d != '_')
      = l.filter fun c => c != '-' && c != '_' := by
  intro l
  rw [List.filter_filter]
  exact List.filter_congr fun c _ => Bool.and_comm _ _

/-- `safeDbName` keeps exactly the characters that are neither a hyphen nor
an underscore. -/
theorem safeDbName_eq_filter (s : String) :
    safeDbName s = ⟨s.data.filter fun c => c != '-' && c != '_'⟩ :=
  congrArg String.mk (filter_dash_then_underscore s.data)

/-- `safeDbName` is idempotent. -/
theorem safeDbName_idem (s : String) : safeDbName (safeDbName s) = safeDbName s := by
  rw [safeDbName_eq_filter s, safeDbName_eq_filter]
  exact congrArg String.mk (filter_self_idem _ s.data)

/-- C1: the claim fails on the code. The `name` pattern string in `SCHEMA`
is `"^[\\w\\d-_]*$/"`, with a stray trailing slash; as an ECMAScript regular
expression it matches no string at all, so `"my-db"` (and every other name,
the empty string included) is rejected, while the spec's documented pattern
`^[\w\d_-]*$` does accept `"my-db"`. -/
theorem c1_name_pattern_rejects_everything :
    nameFieldAccepts "my-db" = false
  ∧ (∀ s : String, nameFieldAccepts s = false)
  ∧ specNameAccepts "my-db" = true :=
  ⟨nameFieldAccepts_eq_false "my-db", fun s => nameFieldAccepts_eq_false s, by decide⟩

/-- C6: `safeDbName` maps `"my-app_db-1"` to `"myappdb1"`, removes every
hyphen and underscore and nothing else (it is the filter keeping all other
characters, in order), and is idempotent. -/
theorem c6_safe_db_name :
    safeDbName "my-app_db-1" = "myappdb1"
  ∧ (∀ s : String, safeDbName s = ⟨s.data.filter fun c => c != '-' && c != '_'⟩)
  ∧ (∀ s : String, safeDbName (safeDbName s) = safeDbName s) :=
  ⟨by decide, safeDbName_eq_filter, safeDbName_idem⟩

/-- C7: for every configuration (and every externally assigned group name and
subnet list), the network construct passes `maxAzs = 2` to the base network
and creates exactly one security group, whose egress rules are exactly one
rule permitting all outbound IPv4 traffic on all ports. -/
theorem c7_vpc_two_azs_one_group (cfg : VpcConfiguration) (provider : ProviderState)
    (sgName : String) (privateSubnetIds : List String) :
    (vpcConstruct cfg provider sgName privateSubnetIds).1.maxAzs = 2
  ∧ (vpcConstruct cfg provider sgName privateSubnetIds).1.securityGroups
      = [{ securityGroupName := sgName,
           egressRules := [{ peer := Peer.anyIpv4, port := PortSpec.allTraffic }] }] :=
  ⟨rfl, rfl⟩

/-- C8: the network construct's constructor publishes to the provider-wide
shared state exactly one entry — the security group's identifier and the list
of private subnet identifiers — and its `outputs()` record is empty. -/
theorem c8_vpc_registers_once (cfg : VpcConfiguration) (provider : ProviderState)
    (sgName : String) (privateSubnetIds : List String) :
    (vpcConstruct cfg provider sgName privateSubnetIds).2.vpcConfigCalls
      = provider.vpcConfigCalls ++ [([sgName], privateSubnetIds)]
  ∧ vpcOutputs = [] :=
  ⟨rfl, rfl⟩

/-- C10: for every configuration, stack name and construct id, the database
declaration sets the CloudWatch log exports to the one-element list holding
the empty string and the log retention to one week. -/
theorem c10_log_exports_fixed (stackName id : String) (cfg : Configuration) :
    (makeDbInstanceProps stackName id cfg).cloudwatchLogsExports = [""]
  ∧ (makeDbInstanceProps stackName id cfg).cloudwatchLogsRetention = RetentionDays.oneWeek :=
  ⟨rfl, rfl⟩

/-- C2 counterexample: invoked with the out-of-enum engine `"oracle"` (schema
validation bypassed), the engine-version mapping silently falls through the
`switch` and returns no engine (`none`, the embedding of the JavaScript
function returning `undefined`); no internal error is raised, refuting the
claim as stated. -/
theorem c2_counterexample :
    getEngineVersion { password := "longpass1", engine := some "oracle" } = none := rfl

/-- C2 (amended): if the engine-version mapping is invoked with an engine
value outside the enum `mysql`, `mariadb`, `postgres`, it returns no engine
(`undefined`); it raises nothing. -/
theorem c2_unmapped_engine_returns_none (cfg : Configuration) (e : String)
    (h : cfg.engine = some e) (h1 : e ≠ "mysql") (h2 : e ≠ "mariadb") (h3 : e ≠ "postgres") :
    getEngineVersion cfg = none := by
  have hg : getEngine cfg = e := by simp [getEngine, h]
  unfold getEngineVersion
  rw [hg]
  split <;> simp_all

/-- C2 witness: the amended theorem instantiated at the engine `"oracle"`. -/
theorem c2_witness :
    getEngineVersion { password := "pw", engine := some "oracle" } = none :=
  c2_unmapped_engine_returns_none { password := "pw", engine := some "oracle" } "oracle"
    rfl (by decide) (by decide) (by decide)

/-- C3: the declared engine of the database descriptor is exactly
`getEngineVersion`, and the mapping is the fixed table
`mysql ↦ (8.0.23, 8.0)`, `mariadb ↦ (10.5.8, 10.5)`,
`postgres ↦ (13.2, 13)`, with `mysql` as the default when the `engine` field
is absent. -/
theorem c3_engine_version_table (stackName id : String) (cfg : Configuration) :
    (makeDbInstanceProps stackName id cfg).engine = getEngineVersion cfg
  ∧ (cfg.engine = none →
      getEngineVersion cfg = some ⟨EngineKind.mysql, ⟨"8.0.23", "8.0"⟩⟩)
  ∧ (cfg.engine = some "mysql" →
      getEngineVersion cfg = some ⟨EngineKind.mysql, ⟨"8.0.23", "8.0"⟩⟩)
  ∧ (cfg.engine = some "mariadb" →
      getEngineVersion cfg = some ⟨EngineKind.mariadb, ⟨"10.5.8", "10.5"⟩⟩)
  ∧ (cfg.engine = some "postgres" →
      getEngineVersion cfg = some ⟨EngineKind.postgres, ⟨"13.2", "13"⟩⟩) := by
  refine ⟨rfl, ?_, ?_, ?_, ?_⟩ <;> intro h <;> simp [getEngineVersion, getEngine, h]

/-- C3 witness: the table theorem instantiated at a concrete postgres
configuration. -/
theorem c3_witness :
    getEngineVersion { password := "longpass1", engine := some "postgres" }
      = some ⟨EngineKind.postgres, ⟨"13.2", "13"⟩⟩ :=
  (c3_engine_version_table "app" "db"
    { password := "longpass1", engine := some "postgres" }).2.2.2.2 rfl

/-- C4: for the configuration holding only `password = "longpass1"`, the
resulting declaration has engine mysql 8.0.23, instance type t3.micro,
allocated storage 20, backup retention 7 days, log retention one week, and
instance identifier `stackName ++ "-" ++ id`. -/
theorem c4_default_descriptor (stackName id : String) :
    (makeDbInstanceProps stackName id { password := "longpass1" }).engine
      = some ⟨EngineKind.mysql, ⟨"8.0.23", "8.0"⟩⟩
  ∧ (makeDbInstanceProps stackName id { password := "longpass1" }).instanceType = "t3.micro"
  ∧ (makeDbInstanceProps stackName id { password := "longpass1" }).allocatedStorage = 20
  ∧ (makeDbInstanceProps stackName id { password := "longpass1" }).backupRetentionDays = 7
  ∧ (makeDbInstanceProps stackName id { password := "longpass1" }).cloudwatchLogsRetention
      = RetentionDays.oneWeek
  ∧ (makeDbInstanceProps stackName id { password := "longpass1" }).instanceIdentifier
      = stackName ++ "-" ++ id :=
  ⟨rfl, rfl, rfl, rfl, rfl, rfl⟩

/-- C5: schema validation rejects every configuration whose password is
shorter than 8 characters and accepts one whose password has exactly 8; it
rejects every configuration whose storage size is below 20 and accepts
storage size exactly 20. -/
theorem c5_password_storage_boundaries :
    (∀ (c : RawConfig) (p : String), c.password = some p → p.length < 8 →
        validateDatabaseConfig c = false)
  ∧ validateDatabaseConfig { password := some "abcdefgh" } = true
  ∧ (∀ (c : RawConfig) (n : Int), c.storageSize = some n → n < 20 →
        validateDatabaseConfig c = false)
  ∧ validateDatabaseConfig { password := some "longpass1", storageSize := some 20 } = true := by
  refine ⟨?_, by decide, ?_, by decide⟩
  · intro c p hp hl
    have hd : decide (8 ≤ p.length) = false := decide_eq_false (by omega)
    simp [validateDatabaseConfig, hp, hd]
  · intro c n hn hl
    have hd : decide ((20 : Int) ≤ n) = false := decide_eq_false (by omega)
    simp [validateDatabaseConfig, hn, hd]

/-- C5 witness: the boundary theorem instantiated at a 5-character password
and at storage size 19. -/
theorem c5_witness :
    validateDatabaseConfig { password := some "short" } = false
  ∧ validateDatabaseConfig { password := some "longpass1", storageSize := some 19 } = false :=
  ⟨c5_password_storage_boundaries.1 { password := some "short" } "short" rfl (by decide),
   c5_password_storage_boundaries.2.2.1 { password := some "longpass1", storageSize := some 19 }
     19 rfl (by decide)⟩

/-- C9 counterexample: the parenthetical of the claim is false on the code —
the schema's pattern as written (with its stray trailing slash) does not
admit the empty string (the spec's intended pattern does). -/
theorem c9_counterexample :
    nameFieldAccepts "" = false ∧ specNameAccepts "" = true := by
  constructor <;> decide

/-- C9 (amended): if `name` is present and equal to the empty string, the
instance identifier and the derived database name are the empty string; the
`stackName-id` fallback is used exactly when `name` is absent. (The code's
literal pattern admits no string at all — see C1 — though the spec's intended
pattern does admit the empty string.) -/
theorem c9_empty_name_not_fallback (stackName id : String) (cfg : Configuration) :
    (cfg.name = some "" →
      (makeDbInstanceProps stackName id cfg).instanceIdentifier = ""
      ∧ (makeDbInstanceProps stackName id cfg).databaseName = "")
  ∧ (cfg.name = none →
      (makeDbInstanceProps stackName id cfg).instanceIdentifier = stackName ++ "-" ++ id) := by
  constructor
  · intro h
    constructor <;> simp [makeDbInstanceProps, h, safeDbName, removeAll]
  · intro h
    simp [makeDbInstanceProps, h]

/-- C9 witness: the empty-name theorem instantiated at concrete
configurations with `name = ""` and with `name` absent. -/
theorem c9_witness :
    ((makeDbInstanceProps "app" "db" { name := some "", password := "pw" }).instanceIdentifier = ""
      ∧ (makeDbInstanceProps "app" "db" { name := some "", password := "pw" }).databaseName = "")
  ∧ (makeDbInstanceProps "app" "db" { password := "pw" }).instanceIdentifier = "app-db" :=
  ⟨(c9_empty_name_not_fallback "app" "db" { name := some "", password := "pw" }).1 rfl,
   (c9_empty_name_not_fallback "app" "db" { password := "pw" }).2 rfl⟩
